import Mathlib

/-!
Verification of the SampleAgent weather-agent core: shallow embedding of the
tool registry, intent/location resolver, forecast day-count resolution,
cost tracker, activity suggester and orchestrator, with theorems checking the
natural-language specification against the code.
-/

/-! ### Generic helpers: Python-style string membership and word-boundary regex search -/

/-- If `w` is a prefix of `q`, return the remainder of `q`; otherwise `none`. -/
def tryMatch : List Char → List Char → Option (List Char)
  | [], q => some q
  | _, [] => none
  | a :: w, b :: q => if a = b then tryMatch w q else none

/-- Python `sub in s` on char lists: `w` occurs contiguously in `q`. -/
def listInfix (w : List Char) : List Char → Bool
  | [] => (tryMatch w []).isSome
  | c :: rest => (tryMatch w (c :: rest)).isSome || listInfix w rest

/-- Python substring containment `sub in s`. -/
def containsSub (sub s : String) : Bool :=
  listInfix sub.toList s.toList

/-- A word character in the sense of the regex `\b` boundary: `[A-Za-z0-9_]`. -/
def isWordChar (c : Char) : Bool :=
  c.isAlphanum || c = '_'

/-- A `\b` boundary holds next to position with this adjacent character
(`none` = string edge). -/
def boundaryOk : Option Char → Bool
  | none => true
  | some c => !isWordChar c

/-- Does `w` occur at the head of `q`, with a `\b` boundary after it? -/
def matchEnd (w q : List Char) : Bool :=
  match tryMatch w q with
  | some rest => boundaryOk rest.head?
  | none => false

/-- Leftmost match of the alternation `\b(w1|w2|...)\b`: at the current position
(preceded by `prev`), try the alternatives in order; else advance. Mirrors how
Python `re.search` scans positions left to right and tries alternatives in
pattern order at each position. -/
def reFindWordScan (pats : List (List Char)) : Option Char → List Char → Option (List Char)
  | prev, [] =>
    pats.findSome? fun w => if boundaryOk prev && matchEnd w [] then some w else none
  | prev, c :: rest =>
    match pats.findSome? fun w => if boundaryOk prev && matchEnd w (c :: rest) then some w else none with
    | some w => some w
    | none => reFindWordScan pats (some c) rest

/-- `re.search(r'\b(p1|p2|...)\b', q)` returning `group(0)` of the leftmost match. -/
def reFindWord (pats : List String) (q : String) : Option String :=
  (reFindWordScan (pats.map String.toList) none q.toList).map fun w => String.mk w

/-- Boolean form: does `re.search(r'\b(p1|...)\b', q)` match? -/
def reWordMatches (pats : List String) (q : String) : Bool :=
  (reFindWord pats q).isSome

/-- Python truthiness of an optional string (`None` and `""` are falsy). -/
def pyFalsyStr : Option String → Bool
  | none => true
  | some s => s.isEmpty

/-! ### Tool registry (tool_registry.py): `Tool`, `validate_params`, `execute` -/

/-- `ToolCategory` enum from tool_registry.py. -/
inductive ToolCategory where
  | data_processing
  | external_api
  | file_operation
  | calculation
deriving DecidableEq, Repr

/-- The `Tool` dataclass. Keyword parameters are an association list from
parameter name to a value of type `α`; the optional bound callable receives the
full parameter mapping and returns a `β`. The `parameters` schema is a mapping
from name to its (type, description) metadata. -/
structure Tool (α β : Type) where
  name : String
  description : String
  category : ToolCategory
  function : Option (List (String × α) → β)
  parameters : List (String × (String × String))
  required_params : List String

/-- The supplied keyword-argument names (`p in params` checks dict keys). -/
def paramKeys {α : Type} (params : List (String × α)) : List String :=
  params.map Prod.fst

/-- `Tool.validate_params`: all required parameters are present. -/
def Tool.validate_params {α β : Type} (t : Tool α β) (params : List (String × α)) : Bool :=
  t.required_params.all fun p => (paramKeys params).contains p

/-- Errors raised by `Tool.execute` (both are `ValueError` in the source; the
payload distinguishes them). -/
inductive ToolError where
  | missingParameters (missing : List String)
  | noImplementation (toolName : String)
deriving DecidableEq, Repr

/-- `Tool.execute`: first check the required parameters, collecting the missing
names in `required_params` order; then check a callable is attached; then
forward the parameters and return the callable result unchanged. -/
def Tool.execute {α β : Type} (t : Tool α β) (params : List (String × α)) : Except ToolError β :=
  if ¬ t.validate_params params then
    Except.error (ToolError.missingParameters
      (t.required_params.filter fun p => ¬ (paramKeys params).contains p))
  else
    match t.function with
    | none => Except.error (ToolError.noImplementation t.name)
    | some f => Except.ok (f params)

/-! ### Theorems for C3 and C10 -/

theorem validate_params_iff {α β : Type} (t : Tool α β) (params : List (String × α)) :
    t.validate_params params = true ↔ ∀ p ∈ t.required_params, p ∈ paramKeys params := by
  simp [Tool.validate_params, List.all_eq_true, List.elem_iff]

/-- C3: if at least one required parameter name is absent, `execute` fails with
the missing-parameters error whose payload holds exactly the absent required
names (in `required_params` order), and the bound callable is never consulted
(the outcome is the same for every choice of callable); if all required names
are present and a callable is attached, `execute` forwards the parameter
mapping and returns the callable's result unchanged. -/
theorem tool_execute_missing_params_exact {α β : Type} (t : Tool α β)
    (params : List (String × α)) :
    ((∃ p ∈ t.required_params, p ∉ paramKeys params) →
      (t.execute params = Except.error (ToolError.missingParameters
          (t.required_params.filter fun p => ¬ (paramKeys params).contains p)) ∧
        (∀ p, p ∈ (t.required_params.filter fun p => ¬ (paramKeys params).contains p) ↔
          p ∈ t.required_params ∧ p ∉ paramKeys params) ∧
        ∀ g : Option (List (String × α) → β),
          Tool.execute { t with function := g } params = t.execute params)) ∧
    (∀ f, t.function = some f → (∀ p ∈ t.required_params, p ∈ paramKeys params) →
      t.execute params = Except.ok (f params)) := by
  constructor
  · intro hmiss
    have hval : ¬ t.validate_params params = true := by
      intro hv
      obtain ⟨p, hp, hnp⟩ := hmiss
      exact hnp ((validate_params_iff t params).mp hv p hp)
    refine ⟨?_, ?_, ?_⟩
    · simp [Tool.execute, hval]
    · intro p
      simp [List.mem_filter, List.elem_iff]
    · intro g
      have e1 : Tool.validate_params { t with function := g } params =
          t.validate_params params := rfl
      simp [Tool.execute, e1, hval]
  · intro f hf hall
    have hval : t.validate_params params = true := (validate_params_iff t params).mpr hall
    simp [Tool.execute, hval, hf]

/-- Witness for C3 at a concrete tool: required `["city"]`, empty parameters. -/
theorem tool_execute_missing_params_exact_witness :
    let t : Tool Nat Nat :=
      { name := "get_current_weather", description := "d",
        category := ToolCategory.external_api,
        function := some fun _ => 42, parameters := [], required_params := ["city"] }
    t.execute [] = Except.error (ToolError.missingParameters ["city"]) ∧
      t.execute [("city", 7)] = Except.ok 42 := by
  intro t
  constructor
  · have h := (tool_execute_missing_params_exact t []).1
      ⟨"city", by decide, by decide⟩
    exact h.1
  · exact (tool_execute_missing_params_exact t [("city", 7)]).2 (fun _ => 42) rfl
      (by decide)

/-- C10: the missing-parameter check strictly precedes the unbound-callable
check: with no attached callable and an absent required parameter, the error is
the missing-parameters one; the no-implementation error occurs exactly when all
required parameters are supplied and the callable is `none`. -/
theorem tool_execute_check_order {α β : Type} (t : Tool α β) (params : List (String × α)) :
    ((t.function = none → (∃ p ∈ t.required_params, p ∉ paramKeys params) →
      t.execute params = Except.error (ToolError.missingParameters
        (t.required_params.filter fun p => ¬ (paramKeys params).contains p)) ∧
      ∀ s, t.execute params ≠ Except.error (ToolError.noImplementation s))) ∧
    (t.execute params = Except.error (ToolError.noImplementation t.name) ↔
      (∀ p ∈ t.required_params, p ∈ paramKeys params) ∧ t.function = none) := by
  constructor
  · intro _ hmiss
    have hval : ¬ t.validate_params params = true := by
      intro hv
      obtain ⟨p, hp, hnp⟩ := hmiss
      exact hnp ((validate_params_iff t params).mp hv p hp)
    constructor
    · simp [Tool.execute, hval]
    · intro s
      simp [Tool.execute, hval]
  · constructor
    · intro h
      by_cases hval : t.validate_params params = true
      · refine ⟨(validate_params_iff t params).mp hval, ?_⟩
        rcases hfun : t.function with _ | f
        · rfl
        · simp [Tool.execute, hval, hfun] at h
      · simp [Tool.execute, hval] at h
    · rintro ⟨hall, hfun⟩
      have hval : t.validate_params params = true := (validate_params_iff t params).mpr hall
      simp [Tool.execute, hval, hfun]

/-- Witness for C10: an unbound tool invoked without its required parameter
yields the missing-parameters error, not the no-implementation error; supplying
the parameter yields the no-implementation error. -/
theorem tool_execute_check_order_witness :
    let t : Tool Nat Nat :=
      { name := "web_search", description := "d",
        category := ToolCategory.external_api,
        function := none, parameters := [], required_params := ["query"] }
    t.execute [] = Except.error (ToolError.missingParameters ["query"]) ∧
      t.execute [] ≠ Except.error (ToolError.noImplementation "web_search") ∧
      t.execute [("query", 1)] = Except.error (ToolError.noImplementation "web_search") := by
  intro t
  have h1 := (tool_execute_check_order t []).1 rfl ⟨"query", by decide, by decide⟩
  refine ⟨h1.1, h1.2 "web_search", ?_⟩
  exact (tool_execute_check_order t [("query", 1)]).2.mpr ⟨by decide, rfl⟩

/-! ### Intent classification (agent.py `WeatherAgent._detect_intent`) -/

/-- Python `str.lower()` (ASCII case mapping, as used by all queries here). -/
def strLower (s : String) : String :=
  String.mk (s.toList.map Char.toLower)

/-- Keywords of the rule `\b(current|now|today)\b`. -/
def currentWords : List String := ["current", "now", "today"]

/-- Keywords of the rule `\b(history|last week|past)\b`. -/
def historyWords : List String := ["history", "last week", "past"]

/-- Keywords of the rule
`\b(forecast|tomorrow|next|upcoming|this weekend|next week|future)\b`. -/
def forecastWords : List String :=
  ["forecast", "tomorrow", "next", "upcoming", "this weekend", "next week", "future"]

/-- `WeatherAgent._detect_intent`: ordered keyword matching over the lowercased
query; first matching rule wins, defaulting to `"current"`. -/
def detect_intent (query : String) : String :=
  let q := strLower query
  if reWordMatches currentWords q then "current"
  else if reWordMatches historyWords q then "history"
  else if reWordMatches forecastWords q then "forecast"
  else "current"

/-- C4: `_detect_intent` is the fixed-priority decision list over the lowercased
query: `current` keywords first, then `history` keywords, then `forecast`
keywords, defaulting to `"current"`; in particular a query with no keyword of
any rule yields `"current"`, and a query matching a forecast keyword but no
current and no history keyword yields `"forecast"`. -/
theorem detect_intent_decision_list (query : String) :
    (reWordMatches currentWords (strLower query) = true →
      detect_intent query = "current") ∧
    (reWordMatches currentWords (strLower query) = false →
      reWordMatches historyWords (strLower query) = true →
      detect_intent query = "history") ∧
    (reWordMatches currentWords (strLower query) = false →
      reWordMatches historyWords (strLower query) = false →
      reWordMatches forecastWords (strLower query) = true →
      detect_intent query = "forecast") ∧
    (reWordMatches currentWords (strLower query) = false →
      reWordMatches historyWords (strLower query) = false →
      reWordMatches forecastWords (strLower query) = false →
      detect_intent query = "current") := by
  refine ⟨?_, ?_, ?_, ?_⟩ <;> intros <;> simp_all [detect_intent]

/-- Witness for C4: `"Weather tomorrow please"` matches only a forecast keyword
and classifies as `forecast`; `"hello Paris"` has no time keyword and defaults
to `current`. -/
theorem detect_intent_decision_list_witness :
    detect_intent "Weather tomorrow please" = "forecast" ∧
      detect_intent "hello Paris" = "current" := by
  constructor
  · exact (detect_intent_decision_list "Weather tomorrow please").2.2.1
      (by decide) (by decide) (by decide)
  · exact (detect_intent_decision_list "hello Paris").2.2.2
      (by decide) (by decide) (by decide)

/-! ### Forecast day-count resolution (agent.py `process_query`, forecast branch) -/

/-- `(5 - today.weekday()) % 7` (Python modulo on 0 ≤ weekday ≤ 6), then rolled
to 7 if it is 0 (Saturday) and `today.hour >= 18` (Saturday evening). -/
def days_to_saturday (weekday hour : Nat) : Nat :=
  let d := (5 + 7 - weekday) % 7
  if d = 0 ∧ 18 ≤ hour then 7 else d

/-- Number of days requested from the forecast tool, from the detected time
phrase: `"weekend" in phrase` → days-to-Saturday + 2; else `"week" in phrase` →
7; else `"tomorrow" in phrase` → 1; else 5. -/
def forecastDaysFor (time_phrase : String) (weekday hour : Nat) : Nat :=
  if containsSub "weekend" time_phrase then days_to_saturday weekday hour + 2
  else if containsSub "week" time_phrase then 7
  else if containsSub "tomorrow" time_phrase then 1
  else 5

/-- C6: forecast day-count resolution is the deterministic mapping: a phrase
containing "weekend" requests days-until-next-Saturday + 2, where
days-until-next-Saturday is `(5 - weekday) mod 7` (integer modulo) rolled to 7
when today is Saturday (weekday 5) and the hour is ≥ 18; a phrase containing
"week" (but not "weekend") requests 7; "tomorrow" requests 1; any other phrase
requests the default 5. -/
theorem forecast_day_count_resolution (time_phrase : String) (weekday hour : Nat)
    (hwd : weekday < 7) :
    (containsSub "weekend" time_phrase = true →
      forecastDaysFor time_phrase weekday hour =
        (if weekday = 5 ∧ 18 ≤ hour then 7 else Int.toNat ((5 - (weekday : ℤ)) % 7)) + 2) ∧
    (containsSub "weekend" time_phrase = false → containsSub "week" time_phrase = true →
      forecastDaysFor time_phrase weekday hour = 7) ∧
    (containsSub "weekend" time_phrase = false → containsSub "week" time_phrase = false →
      containsSub "tomorrow" time_phrase = true →
      forecastDaysFor time_phrase weekday hour = 1) ∧
    (containsSub "weekend" time_phrase = false → containsSub "week" time_phrase = false →
      containsSub "tomorrow" time_phrase = false →
      forecastDaysFor time_phrase weekday hour = 5) := by
  have hd : days_to_saturday weekday hour =
      if weekday = 5 ∧ 18 ≤ hour then 7 else Int.toNat ((5 - (weekday : ℤ)) % 7) := by
    interval_cases weekday <;> simp [days_to_saturday]
  refine ⟨?_, ?_, ?_, ?_⟩ <;> intros <;> simp_all [forecastDaysFor]

/-- Witness for C6: Wednesday (weekday 2) gives 3 + 2 = 5 weekend days; Saturday
19:00 rolls to 7 + 2 = 9; `"next week"` gives 7; `"tomorrow"` gives 1; the
default phrase `"the future"` gives 5. -/
theorem forecast_day_count_resolution_witness :
    forecastDaysFor "this weekend" 2 12 = 5 ∧ forecastDaysFor "this weekend" 5 19 = 9 ∧
      forecastDaysFor "next week" 2 12 = 7 ∧ forecastDaysFor "tomorrow" 2 12 = 1 ∧
      forecastDaysFor "the future" 2 12 = 5 := by
  refine ⟨?_, ?_, ?_, ?_, ?_⟩
  · rw [(forecast_day_count_resolution "this weekend" 2 12 (by decide)).1 (by decide)]
    decide
  · rw [(forecast_day_count_resolution "this weekend" 5 19 (by decide)).1 (by decide)]
    decide
  · exact (forecast_day_count_resolution "next week" 2 12 (by decide)).2.1
      (by decide) (by decide)
  · exact (forecast_day_count_resolution "tomorrow" 2 12 (by decide)).2.2.1
      (by decide) (by decide) (by decide)
  · exact (forecast_day_count_resolution "the future" 2 12 (by decide)).2.2.2
      (by decide) (by decide) (by decide)

/-! ### Location resolution (agent.py `WeatherAgent._extract_city`, decision part) -/

/-- Parsed JSON verdict from the city-verification LLM call, holding what the
code reads from the parsed dict. `is_valid` is the truthiness of
`result.get('is_valid')` (absent → falsy); `confidence` is
`result.get('confidence', 0)`; `alternates` carries the truthiness of
`result.get('alternates')` (absent → empty list); `city` / `country` /
`disambiguation` are `none` when the key is absent — the code reads `city` and
`country` with unguarded indexing (`result['city']`, `result['country']`),
which raises `KeyError` on a missing key. -/
structure CityVerdict where
  is_valid : Bool
  city : Option String
  country : Option String
  alternates : List String
  confidence : ℚ
  disambiguation : Option String
deriving DecidableEq, Repr

/-- Decision tail of `_extract_city` on a successfully parsed verdict.
`Except.error` models an uncaught exception escaping `_extract_city` (the
surrounding handler only catches `json.JSONDecodeError`). The high-confidence
branch reads `result['city']` and then prints `result['country']`; the
ambiguous branch prints `result['city']` and `result['country']` before
returning `result['city']`; the final branch returns `None` using only guarded
`.get` accesses. -/
def extract_city_from_verdict (r : CityVerdict) : Except String (Option String) :=
  if r.is_valid && decide ((7 : ℚ)/10 < r.confidence) then
    match r.city with
    | none => Except.error "KeyError: city"
    | some city_name =>
      match r.country with
      | none => Except.error "KeyError: country"
      | some _ => Except.ok (some city_name)
  else if r.is_valid && !r.alternates.isEmpty then
    match r.city, r.country with
    | none, _ => Except.error "KeyError: city"
    | some _, none => Except.error "KeyError: country"
    | some city_name, some _ => Except.ok (some city_name)
  else
    Except.ok none

/-- `WeatherAgent._extract_city` given the regex candidate (phase 1 result,
used only to build the verification prompt), the LLM response content
(`none` models a falsy response or one without `choices`, which reaches the
final `return None`), and the JSON parser (`none` = `json.JSONDecodeError`,
caught and converted to `None`). -/
def extract_city (candidate_city : Option String) (response : Option String)
    (parseJson : String → Option CityVerdict) : Except String (Option String) :=
  match response with
  | some content =>
    match parseJson content with
    | some result => extract_city_from_verdict result
    | none => Except.ok none
  | none => Except.ok none

/-- The parse of `{"is_valid": true, "city": "Cambridge", "confidence": 0.9}` —
valid, high confidence, but no `country` key. -/
def verdictNoCountry : CityVerdict :=
  { is_valid := true, city := some "Cambridge", country := none,
    alternates := [], confidence := 9/10, disambiguation := none }

/-- Counterexample to C5 as stated: a response parsing to a JSON object with
`is_valid` true and confidence 0.9 > 0.7 but no `country` key makes
`_extract_city` raise `KeyError` (from the unguarded `result['country']` in the
verified-city progress print), instead of returning the LLM-provided city. -/
theorem extract_city_counterexample :
    extract_city (some "Springfield")
        (some "\x7b\"is_valid\": true, \"city\": \"Cambridge\", \"confidence\": 0.9\x7d")
        (fun _ => some verdictNoCountry) = Except.error "KeyError: country" ∧
      extract_city (some "Springfield")
        (some "\x7b\"is_valid\": true, \"city\": \"Cambridge\", \"confidence\": 0.9\x7d")
        (fun _ => some verdictNoCountry) ≠ Except.ok (some "Cambridge") := by
  have h : extract_city (some "Springfield")
      (some "\x7b\"is_valid\": true, \"city\": \"Cambridge\", \"confidence\": 0.9\x7d")
      (fun _ => some verdictNoCountry) = Except.error "KeyError: country" := by
    show extract_city_from_verdict verdictNoCountry = Except.error "KeyError: country"
    have hc : ((7 : ℚ)/10 < verdictNoCountry.confidence) := by
      norm_num [verdictNoCountry]
    simp only [extract_city_from_verdict, verdictNoCountry]
    norm_num
  exact ⟨h, by simp [h]⟩

/-- C5 (amended): the resolution decision depends only on the LLM response,
never on the regex candidate; a parsed verdict that is valid with confidence
> 0.7 *and supplies the `city` and `country` fields* resolves to exactly the
LLM-provided city; a valid verdict with non-empty alternates (confidence not
above 0.7) that supplies both fields also resolves to the city; every other
parsed verdict, a JSON parse failure, and a missing/`choices`-less response all
resolve to `none` with no exception. -/
theorem extract_city_llm_decision (candidate candidate' : Option String)
    (response : Option String) (parseJson : String → Option CityVerdict) :
    (extract_city candidate response parseJson =
      extract_city candidate' response parseJson) ∧
    (∀ content r city_name, response = some content → parseJson content = some r →
      r.is_valid = true → (7 : ℚ)/10 < r.confidence →
      r.city = some city_name → r.country.isSome = true →
      extract_city candidate response parseJson = Except.ok (some city_name)) ∧
    (∀ content r city_name, response = some content → parseJson content = some r →
      r.is_valid = true → ¬ ((7 : ℚ)/10 < r.confidence) → r.alternates ≠ [] →
      r.city = some city_name → r.country.isSome = true →
      extract_city candidate response parseJson = Except.ok (some city_name)) ∧
    (∀ content r, response = some content → parseJson content = some r →
      (r.is_valid = false ∨ (¬ ((7 : ℚ)/10 < r.confidence) ∧ r.alternates = [])) →
      extract_city candidate response parseJson = Except.ok none) ∧
    (∀ content, response = some content → parseJson content = none →
      extract_city candidate response parseJson = Except.ok none) ∧
    (response = none → extract_city candidate response parseJson = Except.ok none) := by
  refine ⟨rfl, ?_, ?_, ?_, ?_, ?_⟩
  · rintro content r city_name rfl hp hv hc hcity hcountry
    obtain ⟨ctry, hctry⟩ := Option.isSome_iff_exists.mp hcountry
    simp [extract_city, hp, extract_city_from_verdict, hv, hc, hcity, hctry]
  · rintro content r city_name rfl hp hv hc halt hcity hcountry
    obtain ⟨ctry, hctry⟩ := Option.isSome_iff_exists.mp hcountry
    simp [extract_city, hp, extract_city_from_verdict, hv, hc, halt, hcity, hctry]
  · rintro content r rfl hp hcase
    rcases hcase with hv | ⟨hc, halt⟩
    · simp [extract_city, hp, extract_city_from_verdict, hv]
    · simp [extract_city, hp, extract_city_from_verdict, hc, halt]
  · rintro content rfl hp
    simp [extract_city, hp]
  · rintro rfl
    rfl

/-- A complete high-confidence verdict, as in the prompt's worked example. -/
def verdictCambridge : CityVerdict :=
  { is_valid := true, city := some "Cambridge", country := some "United Kingdom",
    alternates := ["United States"], confidence := 9/10, disambiguation := none }

/-- Witness for C5 (amended): with a complete high-confidence verdict the
resolver returns the LLM city even though the regex candidate disagreed. -/
theorem extract_city_llm_decision_witness :
    extract_city (some "Springfield") (some "resp")
      (fun _ => some verdictCambridge) = Except.ok (some "Cambridge") := by
  exact (extract_city_llm_decision (some "Springfield") (some "Chicago") (some "resp")
      (fun _ => some verdictCambridge)).2.1 "resp" verdictCambridge "Cambridge"
    rfl rfl rfl (by norm_num [verdictCambridge]) rfl rfl

/-! ### Indoor/outdoor framing (tools/brave_search.py `get_activity_suggestion`) -/

/-- Weather-aware query construction of `BraveSearch.get_activity_suggestion`:
from `float(weather['temp'])` and `weather['conditions'].lower()`, pick the
`weather_context` and the search query, in source order. -/
def weatherContextQuery (city : String) (temp : ℚ) (conditions : String) : String × String :=
  let c := strLower conditions
  if containsSub "rain" c = true ∨ containsSub "storm" c = true then
    ("indoor", s!"famous indoor museum gallery {city} -tripadvisor -booking")
  else if containsSub "snow" c = true then
    ("indoor", s!"best indoor attractions {city} museum gallery -tripadvisor -booking")
  else if 30 < temp then
    ("indoor", s!"famous shopping mall museum gallery aquarium {city} -tripadvisor -yelp")
  else if temp < 5 then
    ("indoor", s!"indoor cultural attractions {city} museum gallery -tripadvisor -booking")
  else if containsSub "clear" c = true ∧ 15 ≤ temp ∧ temp ≤ 25 then
    ("outdoor", s!"must visit landmark monument park {city} -tripadvisor -booking")
  else
    ("general", s!"most famous landmark monument {city} -tripadvisor -booking")

/-- The weather-appropriate parenthetical note appended to a found attraction,
from the selected `weather_context` and the temperature. -/
def weatherNote (weather_context : String) (temp : ℚ) : String :=
  if weather_context = "indoor" then
    if 30 < temp then " (an air-conditioned venue perfect for hot weather)"
    else " (a great indoor activity for this weather)"
  else if weather_context = "outdoor" then " (perfect weather for outdoor activities)"
  else ""

/-- C8: the indoor/outdoor framing is exactly this precedence list over the
lowercased conditions and numeric temperature: rain or storm → indoor; else
snow → indoor; else temp > 30 → indoor with the air-conditioned (cooling)
note; else temp < 5 → indoor; else clear with 15 ≤ temp ≤ 25 → outdoor;
anything else → the generic "must-see" framing. -/
theorem weather_framing_thresholds (city : String) (temp : ℚ) (conditions : String) :
    ((containsSub "rain" (strLower conditions) = true ∨
        containsSub "storm" (strLower conditions) = true) →
      (weatherContextQuery city temp conditions).1 = "indoor") ∧
    (containsSub "rain" (strLower conditions) = false →
      containsSub "storm" (strLower conditions) = false →
      containsSub "snow" (strLower conditions) = true →
      (weatherContextQuery city temp conditions).1 = "indoor") ∧
    (containsSub "rain" (strLower conditions) = false →
      containsSub "storm" (strLower conditions) = false →
      containsSub "snow" (strLower conditions) = false → 30 < temp →
      (weatherContextQuery city temp conditions).1 = "indoor" ∧
        weatherNote (weatherContextQuery city temp conditions).1 temp =
          " (an air-conditioned venue perfect for hot weather)") ∧
    (containsSub "rain" (strLower conditions) = false →
      containsSub "storm" (strLower conditions) = false →
      containsSub "snow" (strLower conditions) = false → ¬ (30 < temp) → temp < 5 →
      (weatherContextQuery city temp conditions).1 = "indoor") ∧
    (containsSub "rain" (strLower conditions) = false →
      containsSub "storm" (strLower conditions) = false →
      containsSub "snow" (strLower conditions) = false → ¬ (30 < temp) → ¬ (temp < 5) →
      containsSub "clear" (strLower conditions) = true → 15 ≤ temp → temp ≤ 25 →
      (weatherContextQuery city temp conditions).1 = "outdoor") ∧
    (containsSub "rain" (strLower conditions) = false →
      containsSub "storm" (strLower conditions) = false →
      containsSub "snow" (strLower conditions) = false → ¬ (30 < temp) → ¬ (temp < 5) →
      (containsSub "clear" (strLower conditions) = false ∨ ¬ (15 ≤ temp) ∨ ¬ (temp ≤ 25)) →
      (weatherContextQuery city temp conditions).1 = "general") := by
  refine ⟨?_, ?_, ?_, ?_, ?_, ?_⟩
  · intro h
    rcases h with h | h <;> simp [weatherContextQuery, h]
  · intro hr hs hsnow
    simp [weatherContextQuery, hr, hs, hsnow]
  · intro hr hs hsnow ht
    constructor <;> simp [weatherContextQuery, weatherNote, hr, hs, hsnow, ht]
  · intro hr hs hsnow ht hc
    simp [weatherContextQuery, hr, hs, hsnow, ht, hc]
  · intro hr hs hsnow ht hc hclear h15 h25
    simp [weatherContextQuery, hr, hs, hsnow, ht, hc, hclear, h15, h25]
  · intro hr hs hsnow ht hc hlast
    rcases hlast with h | h | h <;>
      simp [weatherContextQuery, hr, hs, hsnow, ht, hc, h]

/-- Witness for C8: temperature 32 °C with conditions "Clear" (no rain, storm
or snow) selects the indoor context with the cooling note; 20 °C clear selects
outdoor. -/
theorem weather_framing_thresholds_witness :
    (weatherContextQuery "Paris" 32 "Clear").1 = "indoor" ∧
      weatherNote (weatherContextQuery "Paris" 32 "Clear").1 32 =
        " (an air-conditioned venue perfect for hot weather)" ∧
      (weatherContextQuery "Paris" 20 "Clear").1 = "outdoor" := by
  have h3 := (weather_framing_thresholds "Paris" 32 "Clear").2.2.1
    (by decide) (by decide) (by decide) (by norm_num)
  have h5 := (weather_framing_thresholds "Paris" 20 "Clear").2.2.2.2.1
    (by decide) (by decide) (by decide) (by norm_num) (by norm_num)
    (by decide) (by norm_num) (by norm_num)
  exact ⟨h3.1, h3.2, h5⟩

/-! ### Cost tracker (cost_tracker.py `CostTracker`) -/

/-- One logged LLM call (`call_info` dict): timestamp, operation tag, token
counts and cost. Costs are exact rationals standing for the Python floats. -/
structure CallInfo where
  timestamp : Nat
  operation : String
  input_tokens : Nat
  output_tokens : Nat
  cost : ℚ
deriving DecidableEq, Repr

/-- Per-operation aggregate entry of `operation_stats`. -/
structure OpStats where
  count : Nat
  input_tokens : Nat
  output_tokens : Nat
  cost : ℚ
deriving DecidableEq, Repr

/-- Session state of `CostTracker`. `operation_stats` is the dict as an
insertion-ordered association list. -/
structure CostTracker where
  model_name : String
  calls : List CallInfo
  total_input_tokens : Nat
  total_output_tokens : Nat
  total_cost : ℚ
  last_call_info : Option CallInfo
  operation_stats : List (String × OpStats)
deriving DecidableEq, Repr

/-- `COST_PER_1K` lookup with the default `{"input": 0.001, "output": 0.001}`. -/
def COST_PER_1K (model_name : String) : ℚ × ℚ :=
  if model_name = "mistralai/Mixtral-8x7B-Instruct-v0.1" then (6/10000, 6/10000)
  else if model_name = "meta-llama/Llama-2-70b-chat" then (9/10000, 9/10000)
  else if model_name = "deepseek/deepseek-r1:free" then (5/10000, 5/10000)
  else (1/1000, 1/1000)

/-- A fresh `CostTracker` (`__init__`): empty ledger, zero totals. -/
def CostTracker.init (model_name : String) : CostTracker :=
  { model_name := model_name, calls := [], total_input_tokens := 0,
    total_output_tokens := 0, total_cost := 0, last_call_info := none,
    operation_stats := [] }

/-- The `call_info` record built by one `log_call`, with `enc` standing for
`len(self.encoding.encode(·))` of the tiktoken encoding. -/
def logRecord (enc : String → Nat) (model_name : String) (now : Nat)
    (operation prompt response : String) : CallInfo :=
  let input_tokens := enc prompt
  let output_tokens := enc response
  let mc := COST_PER_1K model_name
  { timestamp := now, operation := operation, input_tokens := input_tokens,
    output_tokens := output_tokens,
    cost := ((input_tokens : ℚ) * mc.1 + (output_tokens : ℚ) * mc.2) / 1000 }

/-- Python-dict insert-then-increment for the `operation_stats[operation]`
update block of `log_call`. -/
def updateOpStats (stats : List (String × OpStats)) (operation : String)
    (it ot : Nat) (c : ℚ) : List (String × OpStats) :=
  match stats with
  | [] => [(operation, { count := 1, input_tokens := it, output_tokens := ot, cost := c })]
  | (k, s) :: rest =>
    if k = operation then
      (k, { count := s.count + 1, input_tokens := s.input_tokens + it,
            output_tokens := s.output_tokens + ot, cost := s.cost + c }) :: rest
    else (k, s) :: updateOpStats rest operation it ot c

/-- `CostTracker.log_call`: compute token counts and cost, bump the totals and
the per-operation stats, append the record and remember it as the last call. -/
def CostTracker.log_call (enc : String → Nat) (st : CostTracker) (now : Nat)
    (operation prompt response : String) : CostTracker :=
  let ci := logRecord enc st.model_name now operation prompt response
  { st with
    total_input_tokens := st.total_input_tokens + ci.input_tokens,
    total_output_tokens := st.total_output_tokens + ci.output_tokens,
    total_cost := st.total_cost + ci.cost,
    operation_stats :=
      updateOpStats st.operation_stats operation ci.input_tokens ci.output_tokens ci.cost,
    calls := st.calls ++ [ci],
    last_call_info := some ci }

/-- The aggregate over the records of one operation tag. -/
def opAggregate (operation : String) (calls : List CallInfo) : OpStats :=
  { count := (calls.filter fun ci => ci.operation == operation).length,
    input_tokens :=
      ((calls.filter fun ci => ci.operation == operation).map (·.input_tokens)).sum,
    output_tokens :=
      ((calls.filter fun ci => ci.operation == operation).map (·.output_tokens)).sum,
    cost := ((calls.filter fun ci => ci.operation == operation).map (·.cost)).sum }

/-- Dict lookup in the association list `operation_stats`. -/
def lookupOp (stats : List (String × OpStats)) (operation : String) : Option OpStats :=
  (stats.find? fun p => p.1 == operation).map Prod.snd

/-- The ledger bookkeeping invariant of a `CostTracker` state: totals are the
sums over the call records, `last_call_info` is the last record, and each
`operation_stats` entry is the aggregate of that operation's records, the
per-operation counts adding up to the number of calls. -/
def TrackerInv (st : CostTracker) : Prop :=
  st.total_input_tokens = (st.calls.map (·.input_tokens)).sum ∧
  st.total_output_tokens = (st.calls.map (·.output_tokens)).sum ∧
  st.total_cost = (st.calls.map (·.cost)).sum ∧
  st.last_call_info = st.calls.getLast? ∧
  (∀ operation, lookupOp st.operation_stats operation =
    if st.calls.any (fun ci => ci.operation == operation) then
      some (opAggregate operation st.calls)
    else none) ∧
  (st.operation_stats.map fun p => p.2.count).sum = st.calls.length


theorem log_call_calls (enc : String → Nat) (st : CostTracker) (now : Nat)
    (operation prompt response : String) :
    (st.log_call enc now operation prompt response).calls =
      st.calls ++ [logRecord enc st.model_name now operation prompt response] := rfl

theorem log_call_opStats (enc : String → Nat) (st : CostTracker) (now : Nat)
    (operation prompt response : String) :
    (st.log_call enc now operation prompt response).operation_stats =
      updateOpStats st.operation_stats operation
        (logRecord enc st.model_name now operation prompt response).input_tokens
        (logRecord enc st.model_name now operation prompt response).output_tokens
        (logRecord enc st.model_name now operation prompt response).cost := rfl

theorem lookupOp_cons_ne (k : String) (s : OpStats) (tl : List (String × OpStats))
    (o : String) (h : k ≠ o) : lookupOp ((k, s) :: tl) o = lookupOp tl o := by
  simp [lookupOp, List.find?, beq_eq_false_iff_ne.mpr h]

theorem lookupOp_updateOpStats (stats : List (String × OpStats)) (operation o : String)
    (it ot : Nat) (c : ℚ) :
    lookupOp (updateOpStats stats operation it ot c) o =
      if o = operation then
        some (match lookupOp stats operation with
          | none => { count := 1, input_tokens := it, output_tokens := ot, cost := c }
          | some s => { count := s.count + 1, input_tokens := s.input_tokens + it,
                        output_tokens := s.output_tokens + ot, cost := s.cost + c })
      else lookupOp stats o := by
  induction stats with
  | nil =>
    by_cases ho : o = operation
    · subst ho
      simp [updateOpStats, lookupOp]
    · have h1 : (operation == o) = false := beq_eq_false_iff_ne.mpr (Ne.symm ho)
      simp [updateOpStats, lookupOp, List.find?, h1, ho]
  | cons hd tl ih =>
    obtain ⟨k, s⟩ := hd
    by_cases hk : k = operation
    · subst hk
      by_cases ho : o = k
      · subst ho
        simp [updateOpStats, lookupOp, List.find?]
      · have h1 : (k == o) = false := beq_eq_false_iff_ne.mpr (Ne.symm ho)
        simp [updateOpStats, lookupOp, List.find?, h1, ho]
    · have hupd : updateOpStats ((k, s) :: tl) operation it ot c =
          (k, s) :: updateOpStats tl operation it ot c := by
        simp [updateOpStats, hk]
      by_cases ho : o = k
      · subst ho
        rw [hupd]
        have hoo : ¬ o = operation := hk
        simp [lookupOp, List.find?, hoo]
      · rw [hupd, lookupOp_cons_ne k s _ o (Ne.symm ho), ih,
          lookupOp_cons_ne k s tl o (Ne.symm ho)]
        by_cases hoo : o = operation
        · subst hoo
          rw [if_pos rfl, if_pos rfl, lookupOp_cons_ne k s tl o (Ne.symm ho)]
        · rw [if_neg hoo, if_neg hoo]

theorem countSum_updateOpStats (stats : List (String × OpStats)) (operation : String)
    (it ot : Nat) (c : ℚ) :
    ((updateOpStats stats operation it ot c).map fun p => p.2.count).sum =
      (stats.map fun p => p.2.count).sum + 1 := by
  induction stats with
  | nil => simp [updateOpStats]
  | cons hd tl ih =>
    obtain ⟨k, s⟩ := hd
    by_cases hk : k = operation
    · simp [updateOpStats, hk]
      ring
    · simp [updateOpStats, hk, ih]
      ring

theorem opAggregate_append (operation : String) (calls : List CallInfo) (ci : CallInfo) :
    opAggregate operation (calls ++ [ci]) =
      if ci.operation = operation then
        { count := (opAggregate operation calls).count + 1,
          input_tokens := (opAggregate operation calls).input_tokens + ci.input_tokens,
          output_tokens := (opAggregate operation calls).output_tokens + ci.output_tokens,
          cost := (opAggregate operation calls).cost + ci.cost }
      else opAggregate operation calls := by
  by_cases h : ci.operation = operation
  · have hbe : (ci.operation == operation) = true := beq_iff_eq.mpr h
    simp [opAggregate, List.filter_append, List.filter, hbe, h]
  · have hbe : (ci.operation == operation) = false := beq_eq_false_iff_ne.mpr h
    simp [opAggregate, List.filter_append, List.filter, hbe, h]

theorem trackerInv_init (model_name : String) : TrackerInv (CostTracker.init model_name) := by
  refine ⟨rfl, rfl, rfl, rfl, ?_, rfl⟩
  intro operation
  simp [CostTracker.init, lookupOp]

theorem trackerInv_step (enc : String → Nat) (st : CostTracker) (now : Nat)
    (operation prompt response : String) (h : TrackerInv st) :
    TrackerInv (st.log_call enc now operation prompt response) := by
  obtain ⟨hin, hout, hcost, hlast, hstats, hcount⟩ := h
  set rec := logRecord enc st.model_name now operation prompt response with hrec
  have hop : rec.operation = operation := rfl
  refine ⟨?_, ?_, ?_, ?_, ?_, ?_⟩
  · show st.total_input_tokens + rec.input_tokens = ((st.calls ++ [rec]).map (·.input_tokens)).sum
    simp [hin]
  · show st.total_output_tokens + rec.output_tokens =
      ((st.calls ++ [rec]).map (·.output_tokens)).sum
    simp [hout]
  · show st.total_cost + rec.cost = ((st.calls ++ [rec]).map (·.cost)).sum
    simp [hcost]
  · show some rec = (st.calls ++ [rec]).getLast?
    simp
  · intro o
    show lookupOp (updateOpStats st.operation_stats operation
        rec.input_tokens rec.output_tokens rec.cost) o =
      if (st.calls ++ [rec]).any (fun ci => ci.operation == o) then
        some (opAggregate o (st.calls ++ [rec])) else none
    rw [lookupOp_updateOpStats]
    have hagg := opAggregate_append o st.calls rec
    by_cases ho : o = operation
    · subst ho
      rw [if_pos rfl, hstats o]
      have hany2 : ((st.calls ++ [rec]).any fun ci => ci.operation == o) = true := by
        simp [List.any_append, hop]
      rw [if_pos hany2, if_pos hop] at *
      rw [hagg]
      by_cases hany : (st.calls.any fun ci => ci.operation == o) = true
      · rw [if_pos hany]
      · rw [if_neg hany]
        have hfil : st.calls.filter (fun ci => ci.operation == o) = [] := by
          rw [List.filter_eq_nil_iff]
          intro ci hci
          rw [List.any_eq_true] at hany
          push_neg at hany
          exact hany ci hci
        have hz : opAggregate o st.calls =
            { count := 0, input_tokens := 0, output_tokens := 0, cost := 0 } := by
          simp [opAggregate, hfil]
        rw [hz]
        simp
    · rw [if_neg ho, hstats o]
      have hne : rec.operation ≠ o := by rw [hop]; exact Ne.symm ho
      have hany2 : ((st.calls ++ [rec]).any fun ci => ci.operation == o) =
          (st.calls.any fun ci => ci.operation == o) := by
        simp [List.any_append, beq_eq_false_iff_ne.mpr hne]
      rw [hany2, hagg, if_neg hne]
  · show ((updateOpStats st.operation_stats operation
        rec.input_tokens rec.output_tokens rec.cost).map fun p => p.2.count).sum =
      (st.calls ++ [rec]).length
    rw [countSum_updateOpStats, hcount]
    simp

/-- Replay a whole session: fold `log_call` over a list of
(timestamp, operation, prompt, response) inputs from a fresh tracker. -/
def runLog (enc : String → Nat) (model_name : String)
    (inputs : List (Nat × String × String × String)) : CostTracker :=
  inputs.foldl (fun st q => st.log_call enc q.1 q.2.1 q.2.2.1 q.2.2.2)
    (CostTracker.init model_name)

theorem trackerInv_foldl (enc : String → Nat)
    (inputs : List (Nat × String × String × String)) (st : CostTracker)
    (h : TrackerInv st) :
    TrackerInv (inputs.foldl (fun s q => s.log_call enc q.1 q.2.1 q.2.2.1 q.2.2.2) st) := by
  induction inputs generalizing st with
  | nil => exact h
  | cons hd tl ih =>
    exact ih _ (trackerInv_step enc st hd.1 hd.2.1 hd.2.2.1 hd.2.2.2 h)

/-- C9: after any sequence of `log_call`s on a fresh `CostTracker`, the session
ledger satisfies: each `log_call` appends exactly one record, leaving every
earlier record unmodified; `last_call_info` is the most recently appended
record; `total_cost` and the token totals are the sums over all records; for
every operation tag the `operation_stats` entry is exactly the aggregate of
that operation's records (and is absent when the operation never occurred);
and the per-operation counts sum to the number of calls. -/
theorem cost_tracker_ledger (enc : String → Nat) (model_name : String)
    (inputs : List (Nat × String × String × String)) :
    (∀ st now operation prompt response,
      (CostTracker.log_call enc st now operation prompt response).calls =
        st.calls ++ [logRecord enc st.model_name now operation prompt response]) ∧
    (runLog enc model_name inputs).last_call_info =
      (runLog enc model_name inputs).calls.getLast? ∧
    (runLog enc model_name inputs).total_cost =
      ((runLog enc model_name inputs).calls.map (·.cost)).sum ∧
    (runLog enc model_name inputs).total_input_tokens =
      ((runLog enc model_name inputs).calls.map (·.input_tokens)).sum ∧
    (runLog enc model_name inputs).total_output_tokens =
      ((runLog enc model_name inputs).calls.map (·.output_tokens)).sum ∧
    (∀ operation, lookupOp (runLog enc model_name inputs).operation_stats operation =
      if (runLog enc model_name inputs).calls.any (fun ci => ci.operation == operation) then
        some (opAggregate operation (runLog enc model_name inputs).calls)
      else none) ∧
    ((runLog enc model_name inputs).operation_stats.map fun p => p.2.count).sum =
      (runLog enc model_name inputs).calls.length := by
  have hinv : TrackerInv (runLog enc model_name inputs) :=
    trackerInv_foldl enc inputs _ (trackerInv_init model_name)
  obtain ⟨hin, hout, hcost, hlast, hstats, hcount⟩ := hinv
  exact ⟨fun st now operation prompt response => rfl, hlast, hcost, hin, hout, hstats, hcount⟩

/-! ### Activity suggester (tools/activity_suggester.py `get_activity_suggestion`) -/

/-- A weather `temp` value: the provider returns a number or the string
sentinel `'unknown'`. -/
inductive TempVal where
  | unknown
  | num (t : ℚ)
deriving DecidableEq, Repr

/-- How the value prints inside an f-string. -/
def TempVal.display : TempVal → String
  | TempVal.unknown => "unknown"
  | TempVal.num t => toString t

/-- The weather dict handed around by the agent: `{'temp': …, 'conditions': …}`. -/
structure WeatherData where
  temp : TempVal
  conditions : String
deriving DecidableEq, Repr

/-- The `weather_prompt` f-string of `get_activity_suggestion` (search-term
generation). -/
def weatherTermsPrompt (city : String) (weather : WeatherData) : String :=
  "\nGiven these weather conditions for " ++ city ++ ":\n- Temperature: " ++
    weather.temp.display ++ "°C\n- Conditions: " ++ weather.conditions ++
    "\n\nGenerate 3-5 specific search terms that would help find weather-appropriate attractions.\n" ++
    "Consider both the temperature and weather conditions to suggest terms that would lead to comfortable activities.\n" ++
    "\nExamples:\n- If it's raining: indoor museum gallery theater covered\n" ++
    "- If it's hot (>30°C): air-conditioned indoor aquarium mall shade\n" ++
    "- If it's cold (<5°C): indoor warm cozy museum cafe\n" ++
    "- If it's pleasant: outdoor park garden walking sightseeing\n" ++
    "\nRespond with ONLY the search terms, separated by spaces. Keep it brief (max 7 words).\n" ++
    "Do NOT include quotes or multiple lines in your response.\n"

/-- The recommendation-synthesis prompt of `get_activity_suggestion`, with the
forecast-vs-current framing strings. -/
def suggestPrompt (city : String) (weather : WeatherData) (is_forecast : Bool)
    (search_result : String) : String :=
  let time_context := if is_forecast then "for the forecasted weather" else "for today's weather"
  let planning_context :=
    if is_forecast then
      "This is a future forecast, so the suggestion should be appropriate for planning ahead."
    else
      "This is the current weather, so the suggestion should be immediately actionable."
  s!"You are a deep local person from {city} with multiple years of experience. " ++
    s!"You are the expert in {city} and with your answers you need to impress a tourist to your city.\n" ++
    s!"\nGiven the weather conditions and search results for {city}, " ++
    s!"suggest ONE specific attraction or activity that would be most appropriate {time_context}.\n" ++
    s!"\nWeather conditions: {weather.temp.display}°C, {weather.conditions}\n" ++
    s!"{planning_context}\n" ++
    s!"\nSearch results about {city}:\n{search_result}\n" ++
    "\nBased on these weather conditions and the search results, what ONE specific " ++
    s!"activity or attraction would you recommend to a visitor to {city}? \n" ++
    "Explain why it's a good choice given the current weather conditions.\n" ++
    "\nYour response should be in this format:\n" ++
    "\"\n\nRecommended Activity: [Your specific activity recommendation]\n" ++
    "[2-3 sentences explaining why this is a good choice for the weather conditions]\"\n"

/-- Cleaning of the generated search terms: drop quotes, fold newlines to
spaces, strip; then (dead after the newline fold) keep only the first line. -/
def cleanSearchTerms (raw_terms : String) : String :=
  let search_terms := ((raw_terms.replace "\"" "").replace "\n" " ").trim
  if containsSub "\n" search_terms then ((search_terms.splitOn "\n").headD "").trim
  else search_terms

/-- Second-attempt query of the fallback chain. -/
def fallbackQuery1 (city : String) : String :=
  s!"most famous landmarks monuments museums attractions {city}"

/-- Third-attempt query of the fallback chain. -/
def fallbackQuery2 (city : String) : String :=
  s!"tourist attractions {city}"

/-- The search stage with its fallback chain: try the targeted query, then the
generic landmarks query, then the plain tourist query; stop at the first truthy
result; `none` after three falsy results. Also returns the list of queries
attempted, in order. -/
def searchWithFallbacks (search : String → Option String) (query : String)
    (city : String) : Option String × List String :=
  let r1 := search query
  if pyFalsyStr r1 then
    let q2 := fallbackQuery1 city
    let r2 := search q2
    if pyFalsyStr r2 then
      let q3 := fallbackQuery2 city
      let r3 := search q3
      if pyFalsyStr r3 then (none, [query, q2, q3])
      else (r3, [query, q2, q3])
    else (r2, [query, q2])
  else (r1, [query])


/-- Lines 59–74 of the source: extract and clean the generated search terms
(empty when the response is unusable) and build the first, targeted query
`"{search_terms} attractions {city}"`. -/
def firstSearchQuery (gen : String → Option String) (city : String)
    (weather : WeatherData) : String :=
  let search_terms :=
    match gen (weatherTermsPrompt city weather) with
    | some content => cleanSearchTerms content.trim
    | none => ""
  s!"{search_terms} attractions {city}"

/-- `ActivitySuggester.get_activity_suggestion` with the LLM and the search
client as oracles: `gen` maps a prompt to the content of the response
(`none` = falsy response or one without `choices`), `search` is
`BraveSearch.search`. Returns the suggestion outcome and the search queries
attempted in order. -/
def get_activity_suggestion (gen search : String → Option String) (city : String)
    (weather : WeatherData) (is_forecast : Bool) : Option String × List String :=
  let query := firstSearchQuery gen city weather
  match searchWithFallbacks search query city with
  | (none, qs) => (none, qs)
  | (some search_result, qs) =>
    match gen (suggestPrompt city weather is_forecast search_result) with
    | some content => (some content.trim, qs)
    | none => (none, qs)

/-- An LLM oracle whose responses are unusable (falsy or without `choices`). -/
def genUnusable : String → Option String := fun _ => none

/-- A search oracle that always finds a snippet. -/
def searchEiffel : String → Option String :=
  fun _ => some "The Eiffel Tower is the most famous landmark of Paris."

/-- Counterexample to C7's "if and only if": with every search succeeding on
the first attempt but the final LLM suggestion response unusable, the suggester
still returns null — so a null return does not imply three empty searches. -/
theorem activity_suggestion_null_counterexample :
    (get_activity_suggestion genUnusable searchEiffel "Paris"
        { temp := TempVal.num 20, conditions := "clear sky" } false).1 = none ∧
      (get_activity_suggestion genUnusable searchEiffel "Paris"
        { temp := TempVal.num 20, conditions := "clear sky" } false).2 =
        [" attractions Paris"] ∧
      pyFalsyStr (searchEiffel " attractions Paris") = false := by
  refine ⟨rfl, rfl, rfl⟩

/-- C7 (amended): the search stage attempts exactly the queries
`"{terms} attractions {city}"`, then
`"most famous landmarks monuments museums attractions {city}"`, then
`"tourist attractions {city}"`, in that order; three consecutive empty results
make the suggester return null after exactly those three attempts (a non-error
outcome), and a non-empty result at any attempt stops the fallback chain
immediately; null can additionally be returned when the final LLM suggestion
response is unusable, after however many attempts the chain made. -/
theorem activity_search_fallback_chain (gen search : String → Option String)
    (city : String) (weather : WeatherData) (is_forecast : Bool) :
    (pyFalsyStr (search (firstSearchQuery gen city weather)) = true →
      pyFalsyStr (search (fallbackQuery1 city)) = true →
      pyFalsyStr (search (fallbackQuery2 city)) = true →
      get_activity_suggestion gen search city weather is_forecast =
        (none, [firstSearchQuery gen city weather, fallbackQuery1 city, fallbackQuery2 city])) ∧
    (pyFalsyStr (search (firstSearchQuery gen city weather)) = false →
      (get_activity_suggestion gen search city weather is_forecast).2 =
        [firstSearchQuery gen city weather]) ∧
    (pyFalsyStr (search (firstSearchQuery gen city weather)) = true →
      pyFalsyStr (search (fallbackQuery1 city)) = false →
      (get_activity_suggestion gen search city weather is_forecast).2 =
        [firstSearchQuery gen city weather, fallbackQuery1 city]) ∧
    (pyFalsyStr (search (firstSearchQuery gen city weather)) = true →
      pyFalsyStr (search (fallbackQuery1 city)) = true →
      pyFalsyStr (search (fallbackQuery2 city)) = false →
      (get_activity_suggestion gen search city weather is_forecast).2 =
        [firstSearchQuery gen city weather, fallbackQuery1 city, fallbackQuery2 city]) := by
  refine ⟨?_, ?_, ?_, ?_⟩
  · intro h1 h2 h3
    simp only [get_activity_suggestion, searchWithFallbacks, h1, h2, h3, if_pos]
  · intro h1
    simp only [get_activity_suggestion, searchWithFallbacks, h1]
    rcases hr : search (firstSearchQuery gen city weather) with _ | s
    · rw [hr] at h1
      simp [pyFalsyStr] at h1
    · cases hg : gen (suggestPrompt city weather is_forecast s) <;> simp [hg]
  · intro h1 h2
    simp only [get_activity_suggestion, searchWithFallbacks, h1, h2]
    rcases hr : search (fallbackQuery1 city) with _ | s
    · rw [hr] at h2
      simp [pyFalsyStr] at h2
    · cases hg : gen (suggestPrompt city weather is_forecast s) <;> simp [hg]
  · intro h1 h2 h3
    simp only [get_activity_suggestion, searchWithFallbacks, h1, h2, h3]
    rcases hr : search (fallbackQuery2 city) with _ | s
    · rw [hr] at h3
      simp [pyFalsyStr] at h3
    · cases hg : gen (suggestPrompt city weather is_forecast s) <;> simp [hg]

/-- A search oracle with no results at all. -/
def searchEmpty : String → Option String := fun _ => none

/-- Witness for C7 (amended): with three empty searches the suggester returns
null after exactly the three queries of the fallback chain. -/
theorem activity_search_fallback_chain_witness :
    get_activity_suggestion genUnusable searchEmpty "Paris"
        { temp := TempVal.num 20, conditions := "clear sky" } false =
      (none, [" attractions Paris",
        "most famous landmarks monuments museums attractions Paris",
        "tourist attractions Paris"]) := by
  have h := (activity_search_fallback_chain genUnusable searchEmpty "Paris"
      { temp := TempVal.num 20, conditions := "clear sky" } false).1 rfl rfl rfl
  rw [h]
  rfl

/-! ### Orchestrator (agent.py `WeatherAgent.process_query`) -/

/-- How a rational prints inside an f-string (stand-in for Python number
formatting). -/
def qDisplay (q : ℚ) : String := toString q

/-- One day of a forecast, as returned by the forecast tool. -/
structure ForecastDay where
  date : String
  min_temp : ℚ
  max_temp : ℚ
  conditions : String
  humidity : ℚ
deriving DecidableEq, Repr

/-- Observable side effects of one `process_query` run, in order: tool
invocations, activity-suggester invocations, and the interaction-log insert. -/
inductive AgentEvent where
  | weatherCall (city : String)
  | forecastCall (city : String) (days : Nat)
  | activityCall (city : String) (is_forecast : Bool)
  | dbInsert (query response : String)
deriving DecidableEq, Repr

/-- External collaborators and ambient state of one `process_query` run: the
`_extract_city` outcome, the weather / forecast tool call outcomes (`error` =
an exception raised inside the `try` block), the activity suggester, today's
weekday (0 = Monday) and hour, and a formatter standing for
`(today + timedelta(days=k)).strftime('%Y-%m-%d')`. -/
structure AgentOracles where
  extractCity : Option String
  weatherTool : Except String WeatherData
  forecastTool : Except String (List ForecastDay)
  suggester : String → WeatherData → Bool → Option String
  weekday : Nat
  hour : Nat
  dateOf : Nat → String

/-- Lines 317–322: collect the forecast entries whose date string equals the
computed Saturday or Sunday date, labelling them. -/
def weekendMatches (forecasts : List ForecastDay) (saturday_date sunday_date : String) :
    List (ForecastDay × String) :=
  forecasts.filterMap fun f =>
    if f.date = saturday_date then some (f, "Saturday")
    else if f.date = sunday_date then some (f, "Sunday")
    else none

/-- Lines 333–337: first entry whose date matches and has a successor; that
successor becomes the Sunday entry. -/
def findNextAfterDate : List ForecastDay → String → Option ForecastDay
  | [], _ => none
  | [_], _ => none
  | f :: g :: rest, d => if f.date = d then some g else findNextAfterDate (g :: rest) d

/-- Lines 338–342 (helper): scan with the previous entry at hand. -/
def findBeforeAux (prev : ForecastDay) : List ForecastDay → String → Option ForecastDay
  | [], _ => none
  | f :: rest, d => if f.date = d then some prev else findBeforeAux f rest d

/-- Lines 338–342: first entry at index > 0 whose date matches; its
predecessor becomes the Saturday entry. -/
def findBeforeDate : List ForecastDay → String → Option ForecastDay
  | [], _ => none
  | f :: rest, d => findBeforeAux f rest d

/-- Lines 324–342: when fewer than two weekend entries were matched by date,
degrade deterministically to positionally-labelled days. -/
def adjustWeekendForecasts (weekend_forecasts : List (ForecastDay × String))
    (forecasts : List ForecastDay) : List (ForecastDay × String) :=
  if weekend_forecasts.length < 2 then
    if weekend_forecasts.length = 0 ∧ 2 ≤ forecasts.length then
      match forecasts with
      | f0 :: f1 :: _ => [(f0, "Saturday"), (f1, "Sunday")]
      | _ => weekend_forecasts
    else if weekend_forecasts.length = 0 ∧ forecasts.length = 1 then
      match forecasts with
      | [f0] => [(f0, "Weekend")]
      | _ => weekend_forecasts
    else if weekend_forecasts.length = 1 ∧ 2 ≤ forecasts.length then
      match weekend_forecasts with
      | [(wf, lbl)] =>
        if lbl = "Saturday" ∧ 1 < forecasts.length then
          match findNextAfterDate forecasts wf.date with
          | some fnext => [(wf, lbl), (fnext, "Sunday")]
          | none => [(wf, lbl)]
        else if lbl = "Sunday" then
          match findBeforeDate forecasts wf.date with
          | some fprev => [(fprev, "Saturday"), (wf, lbl)]
          | none => [(wf, lbl)]
        else [(wf, lbl)]
      | _ => weekend_forecasts
    else weekend_forecasts
  else weekend_forecasts

/-- Lines 344–346: the weekend forecast response text. -/
def weekendResponseText (city : String) (wf : List (ForecastDay × String)) : String :=
  s!"Weather forecast for {city} this weekend:\n\n" ++
    String.join (wf.map fun p =>
      s!"• {p.1.date} ({p.2}): {qDisplay p.1.min_temp}°C to {qDisplay p.1.max_temp}°C, {p.1.conditions}\n")

/-- Lines 347–353: tomorrow's forecast response text. -/
def tomorrowResponseText (city : String) (tomorrow : ForecastDay) : String :=
  s!"Weather forecast for {city} tomorrow ({tomorrow.date}):\n" ++
    s!"Temperature: {qDisplay tomorrow.min_temp}°C to {qDisplay tomorrow.max_temp}°C\n" ++
    s!"Conditions: {tomorrow.conditions}\n" ++
    s!"Humidity: {qDisplay tomorrow.humidity}%"

/-- Lines 354–358: the multi-day forecast response text. -/
def multiDayResponseText (city : String) (forecasts : List ForecastDay) : String :=
  s!"Weather forecast for {city} for the next {forecasts.length} days:\n\n" ++
    String.join (forecasts.map fun day =>
      s!"• {day.date}: {qDisplay day.min_temp}°C to {qDisplay day.max_temp}°C, {day.conditions}\n")

/-- The `intent == "current"` branch (lines 223–257): call the weather tool;
an exception becomes the error apology; the `'unknown'` sentinel (a string
comparison, no numeric comparison) becomes the couldn't-get apology before any
activity-suggestion call; otherwise compose the reading and augment with the
activity suggestion when truthy. -/
def currentBranch (o : AgentOracles) (city : String) : String × List AgentEvent :=
  match o.weatherTool with
  | Except.error _ =>
    (s!"I'm sorry, I encountered an error getting weather for {city}.",
      [AgentEvent.weatherCall city])
  | Except.ok result =>
    match result.temp with
    | TempVal.unknown =>
      (s!"I'm sorry, I couldn't get the current weather for {city}.",
        [AgentEvent.weatherCall city])
    | TempVal.num t =>
      let base := s!"Current weather in {city}: {qDisplay t}°C, {result.conditions}"
      let events := [AgentEvent.weatherCall city, AgentEvent.activityCall city false]
      match o.suggester city result false with
      | some suggestion =>
        if suggestion.isEmpty then (base, events) else (base ++ suggestion, events)
      | none => (base, events)

/-- The `intent == "forecast"` branch (lines 258–383): detect the time phrase,
resolve the day count, call the forecast tool, format per time phrase, and
augment with the activity suggestion for the first day. -/
def forecastBranch (o : AgentOracles) (query city : String) : String × List AgentEvent :=
  let time_phrase := (reFindWord forecastWords (strLower query)).getD "the future"
  let days_sat := days_to_saturday o.weekday o.hour
  let saturday_date := o.dateOf days_sat
  let sunday_date := o.dateOf (days_sat + 1)
  let forecast_days := forecastDaysFor time_phrase o.weekday o.hour
  match o.forecastTool with
  | Except.error _ =>
    (s!"I'm sorry, I encountered an error getting the forecast for {city}.",
      [AgentEvent.forecastCall city forecast_days])
  | Except.ok forecasts =>
    if forecasts.isEmpty then
      (s!"I'm sorry, I couldn't get the weather forecast for {city}.",
        [AgentEvent.forecastCall city forecast_days])
    else
      let body :=
        if containsSub "weekend" time_phrase then
          weekendResponseText city
            (adjustWeekendForecasts (weekendMatches forecasts saturday_date sunday_date)
              forecasts)
        else if containsSub "tomorrow" time_phrase then
          match forecasts with
          | f :: _ => tomorrowResponseText city f
          | [] => ""
        else multiDayResponseText city forecasts
      match forecasts with
      | [] => (body, [AgentEvent.forecastCall city forecast_days])
      | first_day :: _ =>
        let weather_data : WeatherData :=
          { temp := TempVal.num ((first_day.min_temp + first_day.max_temp) / 2),
            conditions := first_day.conditions }
        let events := [AgentEvent.forecastCall city forecast_days,
          AgentEvent.activityCall city true]
        match o.suggester city weather_data true with
        | some suggestion =>
          if suggestion.isEmpty then (body, events)
          else (body ++ "\n" ++ suggestion, events)
        | none => (body, events)

/-- `WeatherAgent.process_query`: detect the intent, resolve the city
(returning the fixed clarification immediately — before the logging step —
when resolution fails), dispatch on the intent, then append the interaction to
the database log. -/
def process_query (o : AgentOracles) (query : String) : String × List AgentEvent :=
  let intent := detect_intent query
  match o.extractCity with
  | none =>
    ("I couldn't understand which city you're asking about. Please specify a city name clearly, like 'weather in San Francisco' or 'Tokyo weather'.",
      [])
  | some city =>
    let re :=
      if intent = "current" then currentBranch o city
      else if intent = "forecast" then forecastBranch o query city
      else if intent = "history" then
        (s!"I'm sorry, I don't have access to historical weather data for {city} yet.",
          ([] : List AgentEvent))
      else
        ("I can help with current weather information. Please specify a location.",
          ([] : List AgentEvent))
    (re.1, re.2 ++ [AgentEvent.dbInsert query re.1])

/-- C1: with intent `current` and a resolved city, when the weather tool's
result carries the `'unknown'` temperature sentinel (detected by string
equality — no numeric comparison is attempted on it, the temperature being
matched as a sum type), `process_query` answers with the apology naming the
city and the activity suggester is never invoked: the run's only events are
the weather tool call and the interaction-log insert. -/
theorem current_unknown_short_circuit (o : AgentOracles) (query city conds : String)
    (hintent : detect_intent query = "current")
    (hcity : o.extractCity = some city)
    (hweather : o.weatherTool = Except.ok { temp := TempVal.unknown, conditions := conds }) :
    (process_query o query).1 =
      s!"I'm sorry, I couldn't get the current weather for {city}." ∧
    (process_query o query).2 =
      [AgentEvent.weatherCall city,
        AgentEvent.dbInsert query s!"I'm sorry, I couldn't get the current weather for {city}."] ∧
    ∀ c b, AgentEvent.activityCall c b ∉ (process_query o query).2 := by
  have h : process_query o query =
      (s!"I'm sorry, I couldn't get the current weather for {city}.",
        [AgentEvent.weatherCall city,
          AgentEvent.dbInsert query
            s!"I'm sorry, I couldn't get the current weather for {city}."]) := by
    simp [process_query, hcity, hintent, currentBranch, hweather]
  refine ⟨by rw [h], by rw [h], ?_⟩
  intro c b hmem
  rw [h] at hmem
  simp at hmem

/-- Oracles for the C1 witness: the weather tool returns the sentinel, and the
suggester is primed with a marker that must not appear. -/
def unknownWeatherOracles : AgentOracles :=
  { extractCity := some "Tokyo",
    weatherTool :=
      Except.ok { temp := TempVal.unknown, conditions := "Could not retrieve weather data" },
    forecastTool := Except.ok [],
    suggester := fun _ _ _ => some " SHOULD NOT APPEAR",
    weekday := 2, hour := 12, dateOf := fun _ => "2026-10-17" }

/-- Witness for C1 at a concrete current-intent query and sentinel reading. -/
theorem current_unknown_short_circuit_witness :
    (process_query unknownWeatherOracles "How is the weather right now in Tokyo").1 =
      "I'm sorry, I couldn't get the current weather for Tokyo." ∧
    ∀ c b, AgentEvent.activityCall c b ∉
      (process_query unknownWeatherOracles "How is the weather right now in Tokyo").2 := by
  have h := current_unknown_short_circuit unknownWeatherOracles
    "How is the weather right now in Tokyo" "Tokyo" "Could not retrieve weather data"
    (by decide) rfl rfl
  exact ⟨h.1.trans rfl, h.2.2⟩

/-- Oracles with an unresolvable location, everything else primed. -/
def noCityOracles : AgentOracles :=
  { extractCity := none,
    weatherTool := Except.ok { temp := TempVal.num 20, conditions := "clear sky" },
    forecastTool := Except.ok [],
    suggester := fun _ _ _ => some " SHOULD NOT APPEAR",
    weekday := 2, hour := 12, dateOf := fun _ => "2026-10-17" }

/-- Counterexample to C2's logging part: on the unresolvable query the
response is the fixed clarification and the event trace is empty — in
particular no interaction-log insert happens, because the early return at the
resolution failure precedes the logging step. -/
theorem no_location_not_logged_counterexample :
    (process_query noCityOracles "weather in Zzqqxx").1 =
      "I couldn't understand which city you're asking about. Please specify a city name clearly, like 'weather in San Francisco' or 'Tokyo weather'." ∧
    (process_query noCityOracles "weather in Zzqqxx").2 = [] ∧
    ∀ q r, AgentEvent.dbInsert q r ∉ (process_query noCityOracles "weather in Zzqqxx").2 := by
  refine ⟨rfl, rfl, ?_⟩
  intro q r hmem
  have h2 : (process_query noCityOracles "weather in Zzqqxx").2 = [] := rfl
  rw [h2] at hmem
  simp at hmem

/-- C2 (amended): when location resolution fails, `process_query` returns the
fixed clarification message and performs nothing after the failure: no
weather, forecast, search or activity-suggestion call — and, contrary to the
claim, no interaction-log insert either, since the early return skips the
logging step. -/
theorem no_location_aborts (o : AgentOracles) (query : String)
    (hcity : o.extractCity = none) :
    (process_query o query).1 =
      "I couldn't understand which city you're asking about. Please specify a city name clearly, like 'weather in San Francisco' or 'Tokyo weather'." ∧
    (process_query o query).2 = [] := by
  simp [process_query, hcity]

/-- Witness for C2 (amended) at the spec's end-to-end scenario query. -/
theorem no_location_aborts_witness :
    (process_query noCityOracles "weather in Zzqqxx").1 =
      "I couldn't understand which city you're asking about. Please specify a city name clearly, like 'weather in San Francisco' or 'Tokyo weather'." ∧
    (process_query noCityOracles "weather in Zzqqxx").2 = [] :=
  no_location_aborts noCityOracles "weather in Zzqqxx" rfl
